import Mathlib

/-!
Verification of the core ray-tracing pipeline of the minecraft raytracer
repository (src/raytracer/src/main.rs and src/raytracer/src/textures.rs).

Modelling conventions:
* f32 scalars are embedded as exact rationals; the transcendental functions
  of the Rust standard library (sqrt, tan, powf) and the constant PI are
  uninterpreted parameters collected in a FloatOps record.
* Fallible code (Option::unwrap, i.e. a potential panic) is embedded as
  Option-valued functions where none models the panic.
* The helper crates and repository modules that are not part of the provided
  sources (cube.rs, snell.rs, camera.rs, light.rs, material.rs and the bvh
  crate) are modelled from the specification; each such definition carries a
  doc comment starting with: Modelled from the spec.
-/

namespace Raytracer

/-- Models the f32 operations that are not exact field arithmetic: the
square root, tangent and power functions of the Rust standard library and
the constant PI are kept as uninterpreted parameters. -/
structure FloatOps where
  sqrt : ℚ → ℚ
  powf : ℚ → ℚ → ℚ
  tan : ℚ → ℚ
  pi : ℚ

/-- raylib Vector3 with exact rational components. -/
structure Vec3 where
  x : ℚ
  y : ℚ
  z : ℚ
deriving DecidableEq

def Vec3.zero : Vec3 := ⟨0, 0, 0⟩

def Vec3.one : Vec3 := ⟨1, 1, 1⟩

instance : Add Vec3 := ⟨fun a b => ⟨a.x + b.x, a.y + b.y, a.z + b.z⟩⟩

instance : Sub Vec3 := ⟨fun a b => ⟨a.x - b.x, a.y - b.y, a.z - b.z⟩⟩

instance : Neg Vec3 := ⟨fun a => ⟨-a.x, -a.y, -a.z⟩⟩

instance : HMul Vec3 ℚ Vec3 := ⟨fun a s => ⟨a.x * s, a.y * s, a.z * s⟩⟩

def Vec3.dot (a b : Vec3) : ℚ := a.x * b.x + a.y * b.y + a.z * b.z

/-- Rust f32 max, for kernel-reducible arithmetic. -/
def qmax (a b : ℚ) : ℚ := if a ≤ b then b else a

/-- Rust f32 min, for kernel-reducible arithmetic. -/
def qmin (a b : ℚ) : ℚ := if b ≤ a then b else a

/-- Rust f32 abs, for kernel-reducible arithmetic. -/
def qabs (a : ℚ) : ℚ := if a < 0 then -a else a

/-- raylib length: the square root of the dot square. -/
def Vec3.length (ops : FloatOps) (a : Vec3) : ℚ := ops.sqrt (a.dot a)

/-- raylib normalized: the vector scaled by the reciprocal of its length. -/
def Vec3.normalized (ops : FloatOps) (a : Vec3) : Vec3 := a * (1 / a.length ops)

/-- Modelled from the spec: material.rs is not among the provided sources.
Per-surface optical parameters; the two albedo weights of the Rust array
are the fields albedo0 and albedo1. -/
structure Material where
  diffuse : Vec3
  albedo0 : ℚ
  albedo1 : ℚ
  specular : ℚ
  reflectivity : ℚ
  transparency : ℚ
  refractive_index : ℚ
  texture : Option String
  normal_map_id : Option String
  emission : Vec3
deriving DecidableEq

/-- Modelled from the spec: the neutral material carried by an empty
intersection record. -/
def Material.defaultMat : Material :=
  ⟨Vec3.zero, 0, 0, 0, 0, 0, 0, none, none, Vec3.zero⟩

/-- Modelled from the spec: light.rs is not among the provided sources.
A light has a position, a color and a scalar intensity. -/
structure Light where
  position : Vec3
  color : Vec3
  intensity : ℚ
deriving DecidableEq

/-- Modelled from the spec: the Light constructor takes position, color and
intensity in this order, as used at the call sites in main.rs. -/
def Light.new (position color : Vec3) (intensity : ℚ) : Light :=
  ⟨position, color, intensity⟩

/-- Modelled from the spec: cube.rs is not among the provided sources. An
axis-aligned box with min and max bounds and an attached material. -/
structure Cube where
  min_bounds : Vec3
  max_bounds : Vec3
  material : Material
deriving DecidableEq

/-- Modelled from the spec: ray_intersect.rs is not among the provided
sources. The transient per-query intersection record. -/
structure Intersect where
  is_intersecting : Bool
  point : Vec3
  normal : Vec3
  distance : ℚ
  material : Material
  u : ℚ
  v : ℚ
deriving DecidableEq

/-- Modelled from the spec: the empty (no hit) intersection record; its
is_intersecting flag is false. -/
def Intersect.empty : Intersect :=
  ⟨false, Vec3.zero, Vec3.zero, 0, Material.defaultMat, 0, 0⟩

inductive Axis
  | ax
  | ay
  | az
deriving DecidableEq

/-- Modelled from the spec: one slab of the slab method. A zero direction
component imposes no constraint on the ray parameter (no division by zero);
otherwise the two bounding planes give an entry and an exit parameter. -/
def axisBounds (bmin bmax o d : ℚ) : Option (ℚ × ℚ) :=
  if d = 0 then none
  else
    let t1 := (bmin - o) / d
    let t2 := (bmax - o) / d
    some (qmin t1 t2, qmax t1 t2)

/-- Combines per-axis entry bounds, keeping the tightest (largest) entry
parameter together with the axis that produced it. -/
def nearBound : Option (ℚ × Axis) → Option (ℚ × Axis) → Option (ℚ × Axis)
  | none, b => b
  | some a, none => some a
  | some a, some b => if a.1 < b.1 then some b else some a

/-- Combines per-axis exit bounds, keeping the smallest exit parameter. -/
def farBound : Option ℚ → Option ℚ → Option ℚ
  | none, b => b
  | some a, none => some a
  | some a, some b => some (qmin a b)

/-- Modelled from the spec: the small positive epsilon below which a slab
entry parameter does not count as a hit. -/
def SLAB_EPS : ℚ := 1 / 1000

/-- Modelled from the spec: the outward axis-aligned face normal of the
face entered by a ray travelling with direction component d on that axis. -/
def axisNormal (a : Axis) (d : Vec3) : Vec3 :=
  match a with
  | Axis.ax => if d.x > 0 then ⟨-1, 0, 0⟩ else ⟨1, 0, 0⟩
  | Axis.ay => if d.y > 0 then ⟨0, -1, 0⟩ else ⟨0, 1, 0⟩
  | Axis.az => if d.z > 0 then ⟨0, 0, -1⟩ else ⟨0, 0, 1⟩

def clamp01 (q : ℚ) : ℚ := qmin 1 (qmax 0 q)

/-- Modelled from the spec: texture coordinates obtained by projecting the
hit point onto the two non-normal axes of the hit face, normalized to the
span of the box on those axes and clamped to the unit interval. -/
def faceUV (c : Cube) (a : Axis) (p : Vec3) : ℚ × ℚ :=
  match a with
  | Axis.ax => (clamp01 ((p.y - c.min_bounds.y) / (c.max_bounds.y - c.min_bounds.y)),
                clamp01 ((p.z - c.min_bounds.z) / (c.max_bounds.z - c.min_bounds.z)))
  | Axis.ay => (clamp01 ((p.x - c.min_bounds.x) / (c.max_bounds.x - c.min_bounds.x)),
                clamp01 ((p.z - c.min_bounds.z) / (c.max_bounds.z - c.min_bounds.z)))
  | Axis.az => (clamp01 ((p.x - c.min_bounds.x) / (c.max_bounds.x - c.min_bounds.x)),
                clamp01 ((p.y - c.min_bounds.y) / (c.max_bounds.y - c.min_bounds.y)))

/-- Modelled from the spec: cube.rs is not among the provided sources. The
slab method on the three axis slabs: intersect the three parameter
intervals; a hit needs a non-empty interval whose near edge is at least the
small positive epsilon; the normal comes from the axis with the tightest
near bound; u and v are the face-local clamped coordinates. -/
def Cube.ray_intersect (c : Cube) (origin dir : Vec3) : Intersect :=
  let bx := axisBounds c.min_bounds.x c.max_bounds.x origin.x dir.x
  let by2 := axisBounds c.min_bounds.y c.max_bounds.y origin.y dir.y
  let bz := axisBounds c.min_bounds.z c.max_bounds.z origin.z dir.z
  let near := nearBound (nearBound (bx.map (fun p => (p.1, Axis.ax)))
      (by2.map (fun p => (p.1, Axis.ay)))) (bz.map (fun p => (p.1, Axis.az)))
  let far := farBound (farBound (bx.map Prod.snd) (by2.map Prod.snd)) (bz.map Prod.snd)
  match near, far with
  | some na, some tf =>
    if na.1 ≤ tf ∧ SLAB_EPS ≤ na.1 then
      let point := origin + dir * na.1
      let uv := faceUV c na.2 point
      ⟨true, point, axisNormal na.2 dir, na.1, c.material, uv.1, uv.2⟩
    else Intersect.empty
  | _, _ => Intersect.empty

/-- textures.rs CpuTexture: decoded pixel data with normalized RGB values.
Width and height are the nonnegative raylib image dimensions. -/
structure CpuTexture where
  width : ℕ
  height : ℕ
  pixels : List Vec3
deriving DecidableEq

/-- textures.rs SkyboxTextures: the six face paths. -/
structure SkyboxTextures where
  front : String
  back : String
  left : String
  right : String
  top : String
  bottom : String
deriving DecidableEq

/-- textures.rs TextureManager. The GPU texture map only ever has its
dimensions read from the core, so its entries are modelled by the decoded
image that was uploaded. The hash maps are modelled as association lists. -/
structure TextureManager where
  cpu_textures : List (String × CpuTexture)
  textures : List (String × CpuTexture)
  skybox_textures : Option SkyboxTextures

def TextureManager.new : TextureManager := ⟨[], [], none⟩

/-- textures.rs load_texture: early return when the path is already a key
of the GPU texture map, otherwise decode once and insert the image into
both maps. Image decoding from disk is modelled by passing the decoded
image as an argument. -/
def TextureManager.load_texture (tm : TextureManager) (path : String)
    (image : CpuTexture) : TextureManager :=
  if (tm.textures.lookup path).isSome then tm
  else ⟨(path, image) :: tm.cpu_textures, (path, image) :: tm.textures,
        tm.skybox_textures⟩

/-- textures.rs load_skybox: load all six faces, then record the skybox.
The disk contents are modelled by a map from path to decoded image. -/
def TextureManager.load_skybox (tm : TextureManager)
    (disk : String → CpuTexture) (skybox : SkyboxTextures) : TextureManager :=
  let t1 := tm.load_texture skybox.front (disk skybox.front)
  let t2 := t1.load_texture skybox.back (disk skybox.back)
  let t3 := t2.load_texture skybox.left (disk skybox.left)
  let t4 := t3.load_texture skybox.right (disk skybox.right)
  let t5 := t4.load_texture skybox.top (disk skybox.top)
  let t6 := t5.load_texture skybox.bottom (disk skybox.bottom)
  ⟨t6.cpu_textures, t6.textures, some skybox⟩

/-- Rust u32 subtraction with wrap-around, used for width minus one. -/
def u32sub1 (w : ℕ) : ℕ := (w + 4294967295) % 4294967296

/-- Rust cast from u32 to i32: reinterpretation of the bit pattern. -/
def toI32 (n : ℕ) : ℤ := if n < 2147483648 then (n : ℤ) else (n : ℤ) - 4294967296

/-- Rust saturating cast from f32 to u32: negative values go to zero,
values beyond the maximum saturate, the fraction is truncated. -/
def ratToU32 (q : ℚ) : ℕ :=
  if q < 0 then 0
  else if (4294967295 : ℚ) < q then 4294967295
  else q.floor.toNat

/-- textures.rs sample_skybox, face selection part (lines 96-139): the
dominant absolute axis component selects the face; the other two
components, divided by the dominant absolute component, give the raw
face-local coordinates. Returns (u, v, face path). -/
def skyboxFaceUV (skybox : SkyboxTextures) (direction : Vec3) : ℚ × ℚ × String :=
  let abs_x := qabs direction.x
  let abs_y := qabs direction.y
  let abs_z := qabs direction.z
  if abs_x > abs_y ∧ abs_x > abs_z then
    if direction.x > 0 then
      (-direction.z / abs_x * (1/2) + 1/2, -direction.y / abs_x * (1/2) + 1/2, skybox.right)
    else
      (direction.z / abs_x * (1/2) + 1/2, -direction.y / abs_x * (1/2) + 1/2, skybox.left)
  else if abs_y > abs_z then
    if direction.y > 0 then
      (direction.x / abs_y * (1/2) + 1/2, -direction.z / abs_y * (1/2) + 1/2, skybox.top)
    else
      (direction.x / abs_y * (1/2) + 1/2, direction.z / abs_y * (1/2) + 1/2, skybox.bottom)
  else
    if direction.z > 0 then
      (direction.x / abs_z * (1/2) + 1/2, -direction.y / abs_z * (1/2) + 1/2, skybox.front)
    else
      (-direction.x / abs_z * (1/2) + 1/2, -direction.y / abs_z * (1/2) + 1/2, skybox.back)

/-- The divisor used by the selected branch of the face mapping. -/
def skyDominant (direction : Vec3) : ℚ :=
  let abs_x := qabs direction.x
  let abs_y := qabs direction.y
  let abs_z := qabs direction.z
  if abs_x > abs_y ∧ abs_x > abs_z then abs_x
  else if abs_y > abs_z then abs_y
  else abs_z

/-- textures.rs sample_skybox, pixel lookup part (lines 145-154): nearest
pixel of the face image at the clamped coordinates; an out-of-range index
yields white. -/
def skyLookup (cpu_texture : CpuTexture) (u v : ℚ) : Vec3 :=
  let tx := ratToU32 (u * ((cpu_texture.width : ℚ) - 1))
  let ty := ratToU32 (v * ((cpu_texture.height : ℚ) - 1))
  let index := (ty * cpu_texture.width + tx) % 4294967296
  if index < cpu_texture.pixels.length then cpu_texture.pixels.getD index Vec3.one
  else Vec3.one

/-- textures.rs sample_skybox. With a configured skybox: select the face,
clamp u and v to the unit interval, look the face image up in the CPU map
(the Rust unwrap is modelled by none on a missing entry) and read the
nearest pixel. Without a skybox: the procedural green-white-blue vertical
gradient. -/
def sample_skybox (ops : FloatOps) (tm : TextureManager) (direction : Vec3) :
    Option Vec3 :=
  match tm.skybox_textures with
  | some skybox =>
    let uvp := skyboxFaceUV skybox direction
    let u := clamp01 uvp.1
    let v := clamp01 uvp.2.1
    match tm.cpu_textures.lookup uvp.2.2 with
    | none => none
    | some cpu_texture => some (skyLookup cpu_texture u v)
  | none =>
    let d := direction.normalized ops
    let t := (d.y + 1) * (1/2)
    let green : Vec3 := ⟨1/10, 6/10, 2/10⟩
    let white : Vec3 := ⟨1, 1, 1⟩
    let blue : Vec3 := ⟨3/10, 5/10, 1⟩
    if t < 54/100 then
      let k := t / (55/100)
      some (green * (1 - k) + white * k)
    else if t < 55/100 then some white
    else if t < 8/10 then
      let k := (t - 55/100) / (25/100)
      some (white * (1 - k) + blue * k)
    else some blue

/-- textures.rs get_pixel_color: clamp the integer coordinates into the
image, bail out to white when the signed reinterpretation is out of range,
read the pixel, defaulting to white on any miss. -/
def TextureManager.get_pixel_color (tm : TextureManager) (path : String)
    (tx ty : ℕ) : Vec3 :=
  match tm.cpu_textures.lookup path with
  | some cpu_texture =>
    let x := toI32 (min tx (u32sub1 cpu_texture.width))
    let y := toI32 (min ty (u32sub1 cpu_texture.height))
    if x < 0 ∨ y < 0 ∨ (cpu_texture.width : ℤ) ≤ x ∨ (cpu_texture.height : ℤ) ≤ y then
      Vec3.one
    else
      let index := (y * (cpu_texture.width : ℤ) + x).toNat
      if index < cpu_texture.pixels.length then cpu_texture.pixels.getD index Vec3.one
      else Vec3.one
  | none => Vec3.one

/-- textures.rs get_texture: lookup in the GPU texture map. -/
def TextureManager.get_texture (tm : TextureManager) (path : String) :
    Option CpuTexture :=
  tm.textures.lookup path

/-- Modelled from the spec: the bvh crate is external. Traversal returns a
candidate set that may contain false positives but must never omit a
primitive whose volume the ray intersects; it is modelled as the full
primitive list, a legal instance of that contract. -/
def bvhTraverse (origin dir : Vec3) (objects : List Cube) : List Cube :=
  objects

/-- main.rs line 38: the shadow ray origin is the hit point pushed a fixed
distance of 0.001 along the surface normal. -/
def shadow_ray_origin (intersect : Intersect) : Vec3 :=
  intersect.point + intersect.normal * (1/1000 : ℚ)

/-- main.rs lines 47-48: one loop step of cast_shadow, as a Boolean test:
the candidate intersects the shadow ray strictly closer than the light. -/
def shadowHit (origin dir : Vec3) (light_distance : ℚ) (object : Cube) : Bool :=
  let shadow_intersect := object.ray_intersect origin dir
  shadow_intersect.is_intersecting && decide (shadow_intersect.distance < light_distance)

/-- main.rs lines 46-52: the early-return loop of cast_shadow. -/
def shadowScan (p : Cube → Bool) : List Cube → ℚ
  | [] => 0
  | object :: rest => if p object then 7/10 else shadowScan p rest

/-- main.rs cast_shadow (lines 31-53). -/
def cast_shadow (ops : FloatOps) (intersect : Intersect) (light : Light)
    (objects : List Cube) : ℚ :=
  let light_direction := (light.position - intersect.point).normalized ops
  let origin := shadow_ray_origin intersect
  let light_distance := (light.position - origin).length ops
  let hit_shapes := bvhTraverse origin light_direction objects
  shadowScan (shadowHit origin light_direction light_distance) hit_shapes

/-- main.rs line 55. -/
def ORIGIN_BIAS : ℚ := 1/10000

/-- main.rs offset_origin (lines 56-63). -/
def offset_origin (intersect : Intersect) (ray_direction : Vec3) : Vec3 :=
  let offset := intersect.normal * ORIGIN_BIAS
  if ray_direction.dot intersect.normal < 0 then intersect.point - offset
  else intersect.point + offset

/-- Modelled from the spec: snell.rs is not among the provided sources.
Mirror reflection of a direction about a surface normal. -/
def reflect (incident normal : Vec3) : Vec3 :=
  incident - normal * (2 * incident.dot normal)

/-- Modelled from the spec: snell.rs is not among the provided sources.
Refraction by Snell law with the material refractive index; total internal
reflection is the degenerate case and contributes the zero direction. -/
def refract (ops : FloatOps) (incident normal : Vec3) (refractive_index : ℚ) : Vec3 :=
  let cosi := -(qmax (-1) (qmin 1 (incident.dot normal)))
  let flip := cosi < 0
  let n := if flip then -normal else normal
  let eta := if flip then refractive_index else 1 / refractive_index
  let c := if flip then -cosi else cosi
  let k := 1 - eta * eta * (1 - c * c)
  if k < 0 then Vec3.zero
  else incident * eta + n * (eta * c - ops.sqrt k)

/-- main.rs cast_ray lines 86-92: the loop keeping the nearest intersection
among the candidates, with the z-buffer modelled as an optional distance
(none is the initial f32 infinity). -/
def sceneScan (origin dir : Vec3) :
    List Cube → Intersect × Option ℚ → Intersect × Option ℚ
  | [], acc => acc
  | object :: rest, acc =>
    let tmp := object.ray_intersect origin dir
    if tmp.is_intersecting &&
        (match acc.2 with
         | none => true
         | some z => decide (tmp.distance < z)) then
      sceneScan origin dir rest (tmp, some tmp.distance)
    else sceneScan origin dir rest acc

/-- main.rs cast_ray lines 84-92: the nearest intersection found by the
scan, starting from the empty record and an unset z-buffer. -/
def sceneIntersect (origin dir : Vec3) (hit_shapes : List Cube) : Intersect :=
  (sceneScan origin dir hit_shapes (Intersect.empty, none)).1

/-- main.rs line 107: the bounding-box center of an emissive cube. -/
def cubeCenter (c : Cube) : Vec3 := (c.min_bounds + c.max_bounds) * (1/2 : ℚ)

/-- main.rs cast_ray lines 103-116: the active light list starts with the
primary light and then walks the first five emissive cubes in iteration
order, skipping any whose center is closer than the squared-distance
threshold 0.01 to the hit point, and turning each kept cube into a point
light at its center with normalized emission color and emission magnitude
intensity. -/
def buildLights (ops : FloatOps) (light : Light) (emissive_objects : List Cube)
    (point : Vec3) : List Light :=
  light :: (((emissive_objects.take 5).filter
      (fun c => !decide ((cubeCenter c - point).dot (cubeCenter c - point) < 1/100))).map
    (fun c => Light.new (cubeCenter c) (c.material.emission.normalized ops)
      (c.material.emission.length ops)))

/-- main.rs cast_ray lines 121-132: one step of the lighting loop,
accumulating the shadow-attenuated diffuse intensity and specular color. -/
def lightStep (ops : FloatOps) (intersect : Intersect) (view_direction normal : Vec3)
    (objects : List Cube) (acc : ℚ × Vec3) (current_light : Light) : ℚ × Vec3 :=
  let light_direction := (current_light.position - intersect.point).normalized ops
  let reflection_direction := (reflect (-light_direction) normal).normalized ops
  let shadow_intensity := cast_shadow ops intersect current_light objects
  let light_intensity := current_light.intensity * (1 - shadow_intensity)
  let specular_intensity :=
    ops.powf (qmax 0 (view_direction.dot reflection_direction)) intersect.material.specular
      * light_intensity
  (acc.1 + qmax 0 (normal.dot light_direction) * light_intensity,
   acc.2 + current_light.color * specular_intensity)

/-- main.rs cast_ray lines 100-132: the full lighting loop. -/
def accumLights (ops : FloatOps) (intersect : Intersect) (view_direction normal : Vec3)
    (objects : List Cube) (lights : List Light) : ℚ × Vec3 :=
  lights.foldl (lightStep ops intersect view_direction normal objects) (0, Vec3.zero)

/-- main.rs cast_ray lines 134-141: resolve the diffuse base color. A
material with a texture reference reads the texture dimensions through the
GPU map (the Rust unwrap is modelled by none on a missing entry) and
samples the pixel; otherwise the flat diffuse color is used. -/
def resolveDiffuseColor (tm : TextureManager) (material : Material) (u v : ℚ) :
    Option Vec3 :=
  match material.texture with
  | some texture_path =>
    match tm.get_texture texture_path with
    | none => none
    | some texture =>
      let tx := ratToU32 (u * (texture.width : ℚ))
      let ty := ratToU32 (v * (texture.height : ℚ))
      some (tm.get_pixel_color texture_path tx ty)
  | none => some material.diffuse

/-- main.rs cast_ray (lines 65-167). The recursion is bounded by the depth
cutoff; a panic anywhere in the evaluation (missing texture unwrap, missing
skybox face unwrap) is modelled by none. -/
def cast_ray (ops : FloatOps) (ray_origin ray_direction : Vec3) (objects : List Cube)
    (light : Light) (emissive_objects : List Cube) (depth : ℕ)
    (texture_manager : TextureManager) : Option Vec3 :=
  if h : depth > 1 then sample_skybox ops texture_manager ray_direction
  else
    let hit_shapes := bvhTraverse ray_origin ray_direction objects
    let intersect := sceneIntersect ray_origin ray_direction hit_shapes
    if !intersect.is_intersecting then sample_skybox ops texture_manager ray_direction
    else
      let emission := intersect.material.emission
      let lights := buildLights ops light emissive_objects intersect.point
      let view_direction := (ray_origin - intersect.point).normalized ops
      let normal := intersect.normal
      let totals := accumLights ops intersect view_direction normal objects lights
      match resolveDiffuseColor texture_manager intersect.material intersect.u intersect.v with
      | none => none
      | some diffuse_color =>
        let diffuse := diffuse_color * totals.1
        let specular := totals.2
        let reflectivity := intersect.material.reflectivity
        let reflection_result : Option Vec3 :=
          if reflectivity > 0 then
            let reflect_direction := reflect ray_direction normal
            let reflect_origin := offset_origin intersect reflect_direction
            cast_ray ops reflect_origin reflect_direction objects light emissive_objects
              (depth + 1) texture_manager
          else some Vec3.zero
        let transparency := intersect.material.transparency
        let refraction_result : Option Vec3 :=
          if transparency > 0 then
            let refract_direction :=
              refract ops ray_direction normal intersect.material.refractive_index
            let refract_origin := offset_origin intersect refract_direction
            cast_ray ops refract_origin refract_direction objects light emissive_objects
              (depth + 1) texture_manager
          else some Vec3.zero
        match reflection_result, refraction_result with
        | some reflection_color, some refraction_color =>
          some (emission + diffuse * intersect.material.albedo0
                + specular * intersect.material.albedo1
                + reflection_color * reflectivity
                + refraction_color * transparency)
        | _, _ => none
termination_by 2 - depth
decreasing_by
  all_goals omega

/-- main.rs cast_ray lines 145-151, abstracted over the intersection
record: the reflection contribution as an optional color. -/
def reflectionTerm (ops : FloatOps) (ray_direction : Vec3) (objects : List Cube)
    (light : Light) (emissive_objects : List Cube) (depth : ℕ)
    (texture_manager : TextureManager) (intersect : Intersect) : Option Vec3 :=
  if intersect.material.reflectivity > 0 then
    let reflect_direction := reflect ray_direction intersect.normal
    cast_ray ops (offset_origin intersect reflect_direction) reflect_direction objects
      light emissive_objects (depth + 1) texture_manager
  else some Vec3.zero

/-- main.rs cast_ray lines 153-159, abstracted over the intersection
record: the refraction contribution as an optional color. -/
def refractionTerm (ops : FloatOps) (ray_direction : Vec3) (objects : List Cube)
    (light : Light) (emissive_objects : List Cube) (depth : ℕ)
    (texture_manager : TextureManager) (intersect : Intersect) : Option Vec3 :=
  if intersect.material.transparency > 0 then
    let refract_direction :=
      refract ops ray_direction intersect.normal intersect.material.refractive_index
    cast_ray ops (offset_origin intersect refract_direction) refract_direction objects
      light emissive_objects (depth + 1) texture_manager
  else some Vec3.zero

/-- Modelled from the spec: camera.rs is not among the provided sources.
The camera supplies an eye position and an orthonormal basis transform
from camera space to world space, kept abstract as a function. -/
structure Camera where
  eye : Vec3
  basis : Vec3 → Vec3

def Camera.basis_change (camera : Camera) (v : Vec3) : Vec3 := camera.basis v

/-- raylib Color: four 8-bit channels. -/
structure Color where
  r : ℕ
  g : ℕ
  b : ℕ
  a : ℕ
deriving DecidableEq

/-- Modelled from the spec: material.rs is not among the provided sources.
Tone mapping at the pixel-write boundary clamps each channel to the unit
interval and scales to the 8-bit range; alpha is opaque. -/
def vector3_to_color (v : Vec3) : Color :=
  ⟨(clamp01 v.x * 255).floor.toNat, (clamp01 v.y * 255).floor.toNat,
   (clamp01 v.z * 255).floor.toNat, 255⟩

/-- main.rs render (lines 169-208). The parallel pixel map is embedded as a
sequential map over the pixel indices; each entry depends only on its own
index. A per-pixel panic is modelled by none in that slot. -/
def render (ops : FloatOps) (width height : ℕ) (objects : List Cube)
    (camera : Camera) (light : Light) (emissive_objects : List Cube)
    (texture_manager : TextureManager) : List (Option Color) :=
  let aspect : ℚ := (width : ℚ) / (height : ℚ)
  let fov := ops.pi / 3
  let perspective_scale := ops.tan (fov * (1/2))
  let camera_eye := camera.eye
  (List.range (width * height)).map (fun i =>
    let x := i % width
    let y := i / width
    let screen_x : ℚ := (2 * (x : ℚ)) / (width : ℚ) - 1
    let screen_y : ℚ := -((2 * (y : ℚ)) / (height : ℚ)) + 1
    let screen_x := screen_x * aspect * perspective_scale
    let screen_y := screen_y * perspective_scale
    let ray_direction := (Vec3.mk screen_x screen_y (-1)).normalized ops
    let rotated_direction := camera.basis_change ray_direction
    (cast_ray ops camera_eye rotated_direction objects light emissive_objects 0
      texture_manager).map vector3_to_color)

/-- The invariant maintained by the public TextureManager operations: every
key of the GPU texture map is a key of the CPU texture map, and whenever a
skybox is recorded all six of its face paths are keys of the CPU map. -/
def TMInv (tm : TextureManager) : Prop :=
  (∀ path, (tm.textures.lookup path).isSome = true →
    (tm.cpu_textures.lookup path).isSome = true) ∧
  (∀ skybox, tm.skybox_textures = some skybox →
    ∀ f ∈ [skybox.front, skybox.back, skybox.left, skybox.right, skybox.top,
      skybox.bottom], (tm.cpu_textures.lookup f).isSome = true)

/-! Concrete sample data used by the witnesses below. -/

/-- A concrete interpretation of the uninterpreted f32 operations. -/
def ops1 : FloatOps := ⟨fun _ => 1, fun _ _ => 1, fun _ => 1, 3⟩

/-- A fully inert material: no emission, reflection, transparency, texture. -/
def matW : Material := ⟨Vec3.zero, 0, 0, 0, 0, 0, 0, none, none, Vec3.zero⟩

def cubeW : Cube := ⟨⟨0, 0, 0⟩, ⟨1, 1, 1⟩, matW⟩

def originW : Vec3 := ⟨-1, 1/2, 1/2⟩

def dirW : Vec3 := ⟨1, 0, 0⟩

/-- A primary light with zero intensity, below the sample cube. -/
def lightW : Light := ⟨⟨0, -10, 0⟩, ⟨1, 1, 1⟩, 0⟩

/-- The intersection record produced by the sample ray against the sample
cube: entry through the minus-x face at distance one. -/
def hitW : Intersect := ⟨true, ⟨0, 1/2, 1/2⟩, ⟨-1, 0, 0⟩, 1, matW, 1/2, 1/2⟩

/-- A material referencing a texture that is never loaded. -/
def matC7 : Material :=
  ⟨⟨1/2, 1/2, 1/2⟩, 1, 0, 0, 0, 0, 0, some ("assets/missing.png"), none, Vec3.zero⟩

/-- A face image with declared one-by-one dimensions but no pixel data, so
every lookup into it is out of range. -/
def texE : CpuTexture := ⟨1, 1, []⟩

def skyW : SkyboxTextures :=
  ⟨("f.png"), ("b.png"), ("l.png"), ("r.png"), ("t.png"), ("bo.png")⟩

/-- A texture manager with the sample skybox configured and all six faces
present in the CPU map. -/
def tmC8 : TextureManager :=
  ⟨[(("f.png"), texE), (("b.png"), texE), (("l.png"), texE), (("r.png"), texE),
    (("t.png"), texE), (("bo.png"), texE)], [], some skyW⟩

/-- A direction exactly on an axis plane: the x and z components tie. -/
def dirC8 : Vec3 := ⟨1, 0, 1⟩

/-- A camera at the origin with the identity basis. -/
def camW : Camera := ⟨Vec3.zero, fun v => v⟩

/-- A disk model mapping every path to the empty sample image. -/
def diskW : String → CpuTexture := fun _ => texE

/-- Seven emissive cubes, all far from the origin. -/
def esW : List Cube :=
  [⟨⟨10, 0, 0⟩, ⟨11, 1, 1⟩, matW⟩, ⟨⟨12, 0, 0⟩, ⟨13, 1, 1⟩, matW⟩,
   ⟨⟨14, 0, 0⟩, ⟨15, 1, 1⟩, matW⟩, ⟨⟨16, 0, 0⟩, ⟨17, 1, 1⟩, matW⟩,
   ⟨⟨18, 0, 0⟩, ⟨19, 1, 1⟩, matW⟩, ⟨⟨20, 0, 0⟩, ⟨21, 1, 1⟩, matW⟩,
   ⟨⟨22, 0, 0⟩, ⟨23, 1, 1⟩, matW⟩]

/-! Component lemmas for the vector algebra, so that simp and norm_num can
evaluate the embedding on concrete inputs. -/

@[simp] theorem Vec3.add_x (a b : Vec3) : (a + b).x = a.x + b.x := rfl

@[simp] theorem Vec3.add_y (a b : Vec3) : (a + b).y = a.y + b.y := rfl

@[simp] theorem Vec3.add_z (a b : Vec3) : (a + b).z = a.z + b.z := rfl

@[simp] theorem Vec3.sub_x (a b : Vec3) : (a - b).x = a.x - b.x := rfl

@[simp] theorem Vec3.sub_y (a b : Vec3) : (a - b).y = a.y - b.y := rfl

@[simp] theorem Vec3.sub_z (a b : Vec3) : (a - b).z = a.z - b.z := rfl

@[simp] theorem Vec3.neg_x (a : Vec3) : (-a).x = -a.x := rfl

@[simp] theorem Vec3.neg_y (a : Vec3) : (-a).y = -a.y := rfl

@[simp] theorem Vec3.neg_z (a : Vec3) : (-a).z = -a.z := rfl

@[simp] theorem Vec3.smul_x (a : Vec3) (s : ℚ) : (a * s).x = a.x * s := rfl

@[simp] theorem Vec3.smul_y (a : Vec3) (s : ℚ) : (a * s).y = a.y * s := rfl

@[simp] theorem Vec3.smul_z (a : Vec3) (s : ℚ) : (a * s).z = a.z * s := rfl

@[simp] theorem Vec3.add_mk (a b c d e f : ℚ) :
    Vec3.mk a b c + Vec3.mk d e f = Vec3.mk (a + d) (b + e) (c + f) := rfl

@[simp] theorem Vec3.sub_mk (a b c d e f : ℚ) :
    Vec3.mk a b c - Vec3.mk d e f = Vec3.mk (a - d) (b - e) (c - f) := rfl

@[simp] theorem Vec3.neg_mk (a b c : ℚ) :
    -Vec3.mk a b c = Vec3.mk (-a) (-b) (-c) := rfl

@[simp] theorem Vec3.smul_mk (a b c s : ℚ) :
    Vec3.mk a b c * s = Vec3.mk (a * s) (b * s) (c * s) := rfl

theorem Vec3.ext_components (a b : Vec3) (hx : a.x = b.x) (hy : a.y = b.y)
    (hz : a.z = b.z) : a = b := by
  cases a; cases b; simp_all

/-- Scaling any vector by the rational zero gives the zero vector. -/
theorem Vec3.smul_zero (a : Vec3) : a * (0 : ℚ) = Vec3.zero := by
  apply Vec3.ext_components <;> simp [Vec3.zero]

/-- C1: for every ray origin, direction, scene, light set and texture
manager, cast_ray invoked at any depth greater than one returns exactly the
environment sample for the ray direction, regardless of scene content; the
cutoff guard is the first step of the function, before any intersection
work. -/
theorem cast_ray_depth_cutoff (ops : FloatOps) (origin dir : Vec3)
    (objects : List Cube) (light : Light) (emissives : List Cube) (depth : ℕ)
    (tm : TextureManager) (h : depth > 1) :
    cast_ray ops origin dir objects light emissives depth tm =
      sample_skybox ops tm dir := by
  rw [cast_ray]
  rw [dif_pos h]

/-- Witness for C1 at depth two in a nonempty scene. -/
theorem cast_ray_depth_cutoff_witness :
    2 > 1 ∧
    cast_ray ops1 originW dirW [cubeW] lightW [] 2 TextureManager.new =
      sample_skybox ops1 TextureManager.new dirW :=
  ⟨by norm_num,
   cast_ray_depth_cutoff ops1 originW dirW [cubeW] lightW [] 2 TextureManager.new
     (by norm_num)⟩

/-- C2 counterexample: at an intersection whose normal is the negative x
axis and a ray direction along the negative x axis, the direction and the
normal point the same way (positive dot product), yet offset_origin adds
the bias along the normal instead of subtracting it as the claim states. -/
theorem offset_origin_sign_counterexample :
    (Vec3.mk (-1) 0 0).dot hitW.normal > 0 ∧
    offset_origin hitW (Vec3.mk (-1) 0 0) ≠
      hitW.point - hitW.normal * ORIGIN_BIAS := by
  constructor
  · norm_num [Vec3.dot, hitW]
  · intro hcontra
    have hx := congrArg Vec3.x hcontra
    rw [offset_origin] at hx
    norm_num [hitW, Vec3.dot, ORIGIN_BIAS] at hx

/-- C2 amended: offset_origin subtracts the bias along the normal when the
ray direction and the normal point opposite ways (negative dot product) and
adds it otherwise; the shadow ray origin is not computed by this policy but
is always the hit point plus the normal times the fixed bias 0.001, as the
concrete intersection record with an incoming direction against the normal
separates. -/
theorem offset_origin_amended :
    (∀ (i : Intersect) (d : Vec3), offset_origin i d =
      (if d.dot i.normal < 0 then i.point - i.normal * ORIGIN_BIAS
       else i.point + i.normal * ORIGIN_BIAS)) ∧
    (∀ i : Intersect, shadow_ray_origin i = i.point + i.normal * (1/1000 : ℚ)) ∧
    shadow_ray_origin hitW ≠ offset_origin hitW (Vec3.mk 1 0 0) := by
  refine ⟨fun i d => rfl, fun i => rfl, ?_⟩
  intro hcontra
  have hx := congrArg Vec3.x hcontra
  rw [offset_origin, shadow_ray_origin] at hx
  norm_num [hitW, Vec3.dot, ORIGIN_BIAS] at hx

/-- With a candidate list in which no cube reports an intersection, the
nearest-intersection scan keeps its accumulator unchanged. -/
theorem sceneScan_all_miss (origin dir : Vec3) (l : List Cube)
    (h : ∀ o ∈ l, (o.ray_intersect origin dir).is_intersecting = false) :
    ∀ acc, sceneScan origin dir l acc = acc := by
  induction l with
  | nil => intro acc; rfl
  | cons head tail ih =>
    intro acc
    rw [sceneScan]
    rw [show (head.ray_intersect origin dir).is_intersecting = false from
      h head (by simp)]
    simp only [Bool.false_and, Bool.false_eq_true, if_false]
    exact ih (fun o ho => h o (List.mem_cons_of_mem _ ho)) acc

/-- C5: at depth at most one, when no candidate primitive reports an
intersection for the ray, cast_ray returns exactly the environment sample
for the ray direction. -/
theorem cast_ray_miss_skybox (ops : FloatOps) (origin dir : Vec3)
    (objects : List Cube) (light : Light) (emissives : List Cube) (depth : ℕ)
    (tm : TextureManager) (hdepth : depth ≤ 1)
    (hmiss : ∀ o ∈ bvhTraverse origin dir objects,
      (o.ray_intersect origin dir).is_intersecting = false) :
    cast_ray ops origin dir objects light emissives depth tm =
      sample_skybox ops tm dir := by
  rw [cast_ray]
  rw [dif_neg (by omega)]
  have hempty : sceneIntersect origin dir (bvhTraverse origin dir objects) =
      Intersect.empty := by
    unfold sceneIntersect
    rw [sceneScan_all_miss origin dir _ hmiss]
  simp only [hempty]
  simp [Intersect.empty]

/-- Witness for C5: an empty scene at depth zero. -/
theorem cast_ray_miss_skybox_witness :
    (0 : ℕ) ≤ 1 ∧
    cast_ray ops1 originW dirW [] lightW [] 0 TextureManager.new =
      sample_skybox ops1 TextureManager.new dirW :=
  ⟨by norm_num,
   cast_ray_miss_skybox ops1 originW dirW [] lightW [] 0 TextureManager.new
     (by norm_num) (by simp [bvhTraverse])⟩

/-- If some list element satisfies the occlusion test, the early-return
shadow loop yields the fixed attenuation 0.7. -/
theorem shadowScan_pos (p : Cube → Bool) (l : List Cube)
    (h : ∃ x ∈ l, p x = true) : shadowScan p l = 7/10 := by
  induction l with
  | nil => simp at h
  | cons head tail ih =>
    rw [shadowScan]
    by_cases hp : p head = true
    · rw [if_pos hp]
    · rw [if_neg hp]
      apply ih
      rcases h with ⟨x, hx, hpx⟩
      rcases List.mem_cons.mp hx with heq | htail
      · exact absurd (heq ▸ hpx) hp
      · exact ⟨x, htail, hpx⟩

/-- If no list element satisfies the occlusion test, the early-return
shadow loop yields zero. -/
theorem shadowScan_none (p : Cube → Bool) (l : List Cube)
    (h : ∀ x ∈ l, p x = false) : shadowScan p l = 0 := by
  induction l with
  | nil => rfl
  | cons head tail ih =>
    rw [shadowScan]
    rw [show p head = false from h head (by simp), if_neg (by simp)]
    exact ih (fun x hx => h x (List.mem_cons_of_mem _ hx))

/-- C3: for every intersection and light, cast_shadow returns exactly 0.7
when some candidate primitive is intersected by the shadow ray strictly
closer than the distance from the offset origin to the light, and exactly
0.0 otherwise; no other attenuation value is ever produced. -/
theorem cast_shadow_binary (ops : FloatOps) (intersect : Intersect)
    (light : Light) (objects : List Cube) :
    cast_shadow ops intersect light objects =
      (if ∃ o ∈ bvhTraverse (shadow_ray_origin intersect)
            ((light.position - intersect.point).normalized ops) objects,
          (o.ray_intersect (shadow_ray_origin intersect)
              ((light.position - intersect.point).normalized ops)).is_intersecting
              = true ∧
          (o.ray_intersect (shadow_ray_origin intersect)
              ((light.position - intersect.point).normalized ops)).distance <
            (light.position - shadow_ray_origin intersect).length ops
        then (7/10 : ℚ) else 0) := by
  rw [cast_shadow]
  by_cases h : ∃ o ∈ bvhTraverse (shadow_ray_origin intersect)
      ((light.position - intersect.point).normalized ops) objects,
      (o.ray_intersect (shadow_ray_origin intersect)
          ((light.position - intersect.point).normalized ops)).is_intersecting = true ∧
      (o.ray_intersect (shadow_ray_origin intersect)
          ((light.position - intersect.point).normalized ops)).distance <
        (light.position - shadow_ray_origin intersect).length ops
  · rw [if_pos h]
    apply shadowScan_pos
    rcases h with ⟨o, ho, h1, h2⟩
    exact ⟨o, ho, by simp [shadowHit, h1, h2]⟩
  · rw [if_neg h]
    apply shadowScan_none
    intro o ho
    by_contra hcontra
    have hb : shadowHit (shadow_ray_origin intersect)
        ((light.position - intersect.point).normalized ops)
        ((light.position - shadow_ray_origin intersect).length ops) o = true := by
      revert hcontra
      cases hfull : shadowHit (shadow_ray_origin intersect)
          ((light.position - intersect.point).normalized ops)
          ((light.position - shadow_ray_origin intersect).length ops) o <;> simp
    rw [shadowHit] at hb
    simp only [Bool.and_eq_true, decide_eq_true_eq] at hb
    exact h ⟨o, ho, hb.1, hb.2⟩

/-- C4: the active light list is the primary light followed by the lights
synthesized from the first five emissive primitives in iteration order,
skipping those whose bounding-box center has squared distance below 0.01
from the hit point; each synthesized light sits at the center with the
normalized emission as color and the emission magnitude as intensity. Hence
at most five secondary lights ever appear, and with seven emissive
primitives all far from the hit point exactly five are applied. -/
theorem build_lights_cap (ops : FloatOps) (light : Light)
    (emissive_objects : List Cube) (point : Vec3) :
    buildLights ops light emissive_objects point =
      light :: ((emissive_objects.take 5).filter
          (fun c => !decide ((cubeCenter c - point).dot (cubeCenter c - point)
            < 1/100))).map
        (fun c => Light.new (cubeCenter c) (c.material.emission.normalized ops)
          (c.material.emission.length ops)) ∧
    (buildLights ops light emissive_objects point).length ≤ 6 ∧
    (emissive_objects.length = 7 →
      (∀ c ∈ emissive_objects,
        ¬ ((cubeCenter c - point).dot (cubeCenter c - point) < 1/100)) →
      (buildLights ops light emissive_objects point).length = 6) := by
  refine ⟨rfl, ?_, ?_⟩
  · rw [buildLights]
    simp only [List.length_cons, List.length_map]
    have h1 := List.length_filter_le
      (fun c => !decide ((cubeCenter c - point).dot (cubeCenter c - point) < 1/100))
      (emissive_objects.take 5)
    have h2 := List.length_take_le 5 emissive_objects
    omega
  · intro hlen hfar
    rw [buildLights]
    have hkeep : (emissive_objects.take 5).filter
        (fun c => !decide ((cubeCenter c - point).dot (cubeCenter c - point)
          < 1/100)) = emissive_objects.take 5 := by
      apply List.filter_eq_self.mpr
      intro c hc
      simp only [Bool.not_eq_true', decide_eq_false_iff_not]
      exact hfar c (List.take_subset 5 emissive_objects hc)
    rw [hkeep]
    simp [List.length_take, hlen]

/-- Witness for C4: seven far emissive cubes yield exactly five secondary
lights beside the primary one. -/
theorem build_lights_cap_witness :
    esW.length = 7 ∧
    (buildLights ops1 lightW esW Vec3.zero).length = 6 := by
  refine ⟨by simp [esW], ?_⟩
  apply (build_lights_cap ops1 lightW esW Vec3.zero).2.2
  · simp [esW]
  · intro c hc
    fin_cases hc <;> norm_num [cubeCenter, Vec3.dot, matW, Vec3.zero]

/-- C6: on every hit at depth at most one, the color returned by cast_ray
is exactly emission plus diffuse times albedo0 plus specular times albedo1
plus the recursive reflection color times reflectivity plus the recursive
refraction color times transparency, with no clamping; the reflection and
refraction contributions are the zero vector when reflectivity respectively
transparency is zero; and for a material with zero emission, reflectivity
and transparency under zero accumulated light the result is exactly the
zero vector. -/
theorem cast_ray_hit_formula (ops : FloatOps) (origin dir : Vec3)
    (objects : List Cube) (light : Light) (emissives : List Cube) (depth : ℕ)
    (tm : TextureManager) (I : Intersect) (dc rc fc : Vec3)
    (hdepth : depth ≤ 1)
    (hI : sceneIntersect origin dir (bvhTraverse origin dir objects) = I)
    (hhit : I.is_intersecting = true)
    (hdc : resolveDiffuseColor tm I.material I.u I.v = some dc)
    (hrc : reflectionTerm ops dir objects light emissives depth tm I = some rc)
    (hfc : refractionTerm ops dir objects light emissives depth tm I = some fc) :
    cast_ray ops origin dir objects light emissives depth tm =
      some (I.material.emission
        + dc * (accumLights ops I ((origin - I.point).normalized ops) I.normal objects
            (buildLights ops light emissives I.point)).1 * I.material.albedo0
        + (accumLights ops I ((origin - I.point).normalized ops) I.normal objects
            (buildLights ops light emissives I.point)).2 * I.material.albedo1
        + rc * I.material.reflectivity
        + fc * I.material.transparency) ∧
    (I.material.reflectivity = 0 → rc = Vec3.zero) ∧
    (I.material.transparency = 0 → fc = Vec3.zero) ∧
    (I.material.emission = Vec3.zero → I.material.reflectivity = 0 →
      I.material.transparency = 0 →
      accumLights ops I ((origin - I.point).normalized ops) I.normal objects
        (buildLights ops light emissives I.point) = (0, Vec3.zero) →
      cast_ray ops origin dir objects light emissives depth tm = some Vec3.zero) := by
  have hmain : cast_ray ops origin dir objects light emissives depth tm =
      some (I.material.emission
        + dc * (accumLights ops I ((origin - I.point).normalized ops) I.normal objects
            (buildLights ops light emissives I.point)).1 * I.material.albedo0
        + (accumLights ops I ((origin - I.point).normalized ops) I.normal objects
            (buildLights ops light emissives I.point)).2 * I.material.albedo1
        + rc * I.material.reflectivity
        + fc * I.material.transparency) := by
    rw [cast_ray]
    rw [dif_neg (by omega)]
    simp only [hI, hhit, Bool.not_true, Bool.false_eq_true, if_false, hdc]
    simp only [reflectionTerm] at hrc
    simp only [refractionTerm] at hfc
    rw [hrc, hfc]
  refine ⟨hmain, ?_, ?_, ?_⟩
  · intro h0
    rw [reflectionTerm, h0] at hrc
    norm_num at hrc
    exact hrc.symm
  · intro h0
    rw [refractionTerm, h0] at hfc
    norm_num at hfc
    exact hfc.symm
  · intro hem h0 ht0 hacc
    rw [hmain, hem, h0, ht0, hacc]
    congr 1
    apply Vec3.ext_components <;> simp [Vec3.zero]

/-- Witness for C6: the sample ray hits the inert sample cube under the
zero-intensity light and the returned color is exactly the zero vector. -/
theorem cast_ray_hit_formula_witness :
    cast_ray ops1 originW dirW [cubeW] lightW [] 0 TextureManager.new =
      some Vec3.zero := by
  have hI : sceneIntersect originW dirW (bvhTraverse originW dirW [cubeW]) = hitW := by
    norm_num [sceneIntersect, sceneScan, bvhTraverse, Cube.ray_intersect, axisBounds,
      qmin, qmax, nearBound, farBound, SLAB_EPS, cubeW, originW, dirW, axisNormal,
      faceUV, clamp01, Intersect.empty, Material.defaultMat, hitW, matW, Vec3.zero]
  have hacc : accumLights ops1 hitW ((originW - hitW.point).normalized ops1)
      hitW.normal [cubeW] (buildLights ops1 lightW [] hitW.point) = (0, Vec3.zero) := by
    norm_num [accumLights, lightStep, buildLights, cast_shadow, shadowScan, shadowHit,
      shadow_ray_origin, bvhTraverse, Cube.ray_intersect, axisBounds, qmin, qmax,
      nearBound, farBound, SLAB_EPS, Vec3.normalized, Vec3.length, Vec3.dot, reflect,
      cubeCenter, Light.new, hitW, matW, cubeW, originW, lightW, ops1, Vec3.zero,
      axisNormal, faceUV, clamp01, Intersect.empty, Material.defaultMat]
  exact (cast_ray_hit_formula ops1 originW dirW [cubeW] lightW [] 0
      TextureManager.new hitW Vec3.zero Vec3.zero Vec3.zero
      (by norm_num) hI (by rfl)
      (by simp [resolveDiffuseColor, hitW, matW])
      (by simp [reflectionTerm, hitW, matW])
      (by simp [refractionTerm, hitW, matW])).2.2.2
    (by rfl) (by rfl) (by rfl) hacc

/-- C7 counterexample: a material referencing a texture that was never
loaded does not resolve to any fallback color during shading; the unwrap
inside cast_ray panics, modelled by none. -/
theorem missing_texture_panics :
    resolveDiffuseColor TextureManager.new matC7 (1/2) (1/2) = none := by
  simp [resolveDiffuseColor, matC7, TextureManager.new, TextureManager.get_texture]

/-- C7 amended: get_pixel_color resolves a lookup whose path is absent from
the CPU texture map to white, and a material with no texture reference uses
its flat diffuse color; but the diffuse resolution inside cast_ray unwraps
the GPU texture lookup, so a material referencing a texture that is not
loaded panics (none) instead of degrading to a fallback color. -/
theorem texture_fallback_amended :
    (∀ (tm : TextureManager) (path : String) (tx ty : ℕ),
      tm.cpu_textures.lookup path = none →
      tm.get_pixel_color path tx ty = Vec3.one) ∧
    (∀ (tm : TextureManager) (material : Material) (u v : ℚ) (path : String),
      material.texture = some path →
      resolveDiffuseColor tm material u v =
        (tm.get_texture path).map (fun texture =>
          tm.get_pixel_color path (ratToU32 (u * (texture.width : ℚ)))
            (ratToU32 (v * (texture.height : ℚ))))) ∧
    (∀ (tm : TextureManager) (material : Material) (u v : ℚ),
      material.texture = none →
      resolveDiffuseColor tm material u v = some material.diffuse) := by
  refine ⟨?_, ?_, ?_⟩
  · intro tm path tx ty h
    rw [TextureManager.get_pixel_color, h]
  · intro tm material u v path h
    rw [resolveDiffuseColor, h]
    cases h2 : tm.get_texture path <;> simp [h2]
  · intro tm material u v h
    rw [resolveDiffuseColor, h]

/-- Witness for C7 amended: the white fallback of get_pixel_color on an
unknown path, and the panic of the cast_ray resolution on the unloaded
reference. -/
theorem texture_fallback_amended_witness :
    TextureManager.new.get_pixel_color ("assets/missing.png") 0 0 = Vec3.one ∧
    resolveDiffuseColor TextureManager.new matC7 (1/3) (1/3) = none := by
  constructor
  · exact texture_fallback_amended.1 TextureManager.new ("assets/missing.png") 0 0
      (by simp [TextureManager.new])
  · rw [texture_fallback_amended.2.1 TextureManager.new matC7 (1/3) (1/3)
      ("assets/missing.png") (by rfl)]
    simp [TextureManager.get_texture, TextureManager.new]

theorem qabs_nonneg (a : ℚ) : 0 ≤ qabs a := by
  unfold qabs; split_ifs <;> linarith

theorem qmax_pos_elim (a b : ℚ) (h : 0 < qmax a b) : 0 < a ∨ 0 < b := by
  unfold qmax at h
  split_ifs at h
  · right; exact h
  · left; exact h

theorem clamp01_mem (q : ℚ) : 0 ≤ clamp01 q ∧ clamp01 q ≤ 1 := by
  unfold clamp01 qmin qmax
  split_ifs <;> constructor <;> linarith

/-- The face path selected by the cube-map mapping is always one of the six
skybox faces. -/
theorem skyboxFaceUV_mem (skybox : SkyboxTextures) (direction : Vec3) :
    (skyboxFaceUV skybox direction).2.2 ∈ [skybox.front, skybox.back, skybox.left,
      skybox.right, skybox.top, skybox.bottom] := by
  rw [skyboxFaceUV]
  split_ifs <;> simp

/-- C8: for every direction whose dominant absolute component is nonzero,
the cube-map face selection is total and deterministic, also at directions
exactly on an axis plane where two components tie: the divisor used by the
selected branch is strictly positive (no division by zero), the clamped
face-local coordinates lie in the unit interval, the selected face is one
of the six skybox faces, the sample is a defined color, and a face image
whose pixel array cannot cover the computed index yields white. -/
theorem sample_skybox_total (ops : FloatOps) (tm : TextureManager)
    (direction : Vec3) (skybox : SkyboxTextures)
    (hsky : tm.skybox_textures = some skybox)
    (hfaces : ∀ f ∈ [skybox.front, skybox.back, skybox.left, skybox.right,
      skybox.top, skybox.bottom], (tm.cpu_textures.lookup f).isSome = true)
    (hdom : 0 < qmax (qabs direction.x) (qmax (qabs direction.y) (qabs direction.z))) :
    0 < skyDominant direction ∧
    (0 ≤ clamp01 (skyboxFaceUV skybox direction).1 ∧
      clamp01 (skyboxFaceUV skybox direction).1 ≤ 1) ∧
    (0 ≤ clamp01 (skyboxFaceUV skybox direction).2.1 ∧
      clamp01 (skyboxFaceUV skybox direction).2.1 ≤ 1) ∧
    (skyboxFaceUV skybox direction).2.2 ∈ [skybox.front, skybox.back, skybox.left,
      skybox.right, skybox.top, skybox.bottom] ∧
    (∃ c, sample_skybox ops tm direction = some c) ∧
    (∀ tex : CpuTexture,
      tm.cpu_textures.lookup (skyboxFaceUV skybox direction).2.2 = some tex →
      tex.pixels = [] → sample_skybox ops tm direction = some Vec3.one) := by
  have hlook : (tm.cpu_textures.lookup (skyboxFaceUV skybox direction).2.2).isSome
      = true := hfaces _ (skyboxFaceUV_mem skybox direction)
  rcases Option.isSome_iff_exists.mp hlook with ⟨tex0, htex0⟩
  refine ⟨?_, clamp01_mem _, clamp01_mem _, skyboxFaceUV_mem skybox direction, ?_, ?_⟩
  · rcases qmax_pos_elim _ _ hdom with hx | hyz
    · rw [skyDominant]
      split_ifs with h1 h2
      · linarith
      · rw [not_and_or, not_lt, not_lt] at h1
        rcases h1 with h1 | h1 <;>
          linarith [qabs_nonneg direction.y, qabs_nonneg direction.z]
      · rw [not_and_or, not_lt, not_lt] at h1
        rw [not_lt] at h2
        rcases h1 with h1 | h1 <;> linarith
    · rcases qmax_pos_elim _ _ hyz with hy | hz
      · rw [skyDominant]
        split_ifs with h1 h2
        · linarith [h1.1]
        · linarith
        · rw [not_lt] at h2
          linarith
      · rw [skyDominant]
        split_ifs with h1 h2
        · linarith [h1.2]
        · linarith
        · linarith
  · refine ⟨skyLookup tex0 (clamp01 (skyboxFaceUV skybox direction).1)
      (clamp01 (skyboxFaceUV skybox direction).2.1), ?_⟩
    rw [sample_skybox, hsky]
    simp only [htex0]
  · intro tex htex hpix
    rw [sample_skybox, hsky]
    simp only [htex]
    rw [skyLookup, hpix]
    simp

/-- Witness for C8 at the axis-plane direction with tying x and z
components, against the sample skybox whose faces carry no pixel data. -/
theorem sample_skybox_total_witness :
    0 < skyDominant dirC8 ∧ sample_skybox ops1 tmC8 dirC8 = some Vec3.one := by
  have h := sample_skybox_total ops1 tmC8 dirC8 skyW (by rfl)
    (by intro f hf; fin_cases hf <;> simp [tmC8, skyW, texE, List.lookup])
    (by norm_num [qmax, qabs, dirC8])
  refine ⟨h.1, ?_⟩
  apply h.2.2.2.2.2 texE ?_ (by rfl)
  have hface : (skyboxFaceUV skyW dirC8).2.2 = skyW.front := by
    norm_num [skyboxFaceUV, qabs, dirC8]
  rw [hface]
  simp [tmC8, skyW, List.lookup]

/-- C9: render produces exactly width times height pixels in row-major
order; pixel index i maps to column i mod width and row i div width, the
normalized screen coordinates are scaled by the aspect ratio and the fixed
sixty-degree field of view, the camera-space direction (screen x, screen y,
minus one) is normalized, transformed by the camera basis and evaluated by
cast_ray at depth zero; every entry is a function of its own index only. -/
theorem render_contract (ops : FloatOps) (width height : ℕ) (objects : List Cube)
    (camera : Camera) (light : Light) (emissives : List Cube)
    (tm : TextureManager) :
    (render ops width height objects camera light emissives tm).length =
      width * height ∧
    (∀ i, i < width * height →
      (render ops width height objects camera light emissives tm)[i]? =
        some ((cast_ray ops camera.eye
            (camera.basis_change ((Vec3.mk
              ((2 * ((i % width : ℕ) : ℚ) / (width : ℚ) - 1) *
                ((width : ℚ) / (height : ℚ)) * ops.tan (ops.pi / 3 * (1/2)))
              ((-(2 * ((i / width : ℕ) : ℚ) / (height : ℚ)) + 1) *
                ops.tan (ops.pi / 3 * (1/2)))
              (-1)).normalized ops))
            objects light emissives 0 tm).map vector3_to_color)) := by
  constructor
  · simp [render]
  · intro i hi
    simp only [render]
    rw [List.getElem?_map, List.getElem?_range hi]
    simp

/-- Witness for C9: the single pixel of a one-by-one frame. -/
theorem render_contract_witness :
    (render ops1 1 1 [] camW lightW [] TextureManager.new)[0]? =
      some ((cast_ray ops1 camW.eye
          (camW.basis_change ((Vec3.mk
            ((2 * ((0 % 1 : ℕ) : ℚ) / (1 : ℚ) - 1) * ((1 : ℚ) / (1 : ℚ)) *
              ops1.tan (ops1.pi / 3 * (1/2)))
            ((-(2 * ((0 / 1 : ℕ) : ℚ) / (1 : ℚ)) + 1) * ops1.tan (ops1.pi / 3 * (1/2)))
            (-1)).normalized ops1))
          [] lightW [] 0 TextureManager.new).map vector3_to_color) :=
  (render_contract ops1 1 1 [] camW lightW [] TextureManager.new).2 0 (by norm_num)

/-- Loading a texture never removes a CPU map entry. -/
theorem load_texture_cpu_mono (tm : TextureManager) (p : String) (img : CpuTexture)
    (q : String) (h : (tm.cpu_textures.lookup q).isSome = true) :
    ((tm.load_texture p img).cpu_textures.lookup q).isSome = true := by
  rw [TextureManager.load_texture]
  split_ifs with hmem
  · exact h
  · cases hq : q == p
    · simp [List.lookup, hq, h]
    · simp [List.lookup, hq]

/-- After loading a texture at a path, that path is in the CPU map,
provided every GPU key was already a CPU key. -/
theorem load_texture_cpu_self (tm : TextureManager) (p : String) (img : CpuTexture)
    (hkeys : ∀ path, (tm.textures.lookup path).isSome = true →
      (tm.cpu_textures.lookup path).isSome = true) :
    ((tm.load_texture p img).cpu_textures.lookup p).isSome = true := by
  rw [TextureManager.load_texture]
  split_ifs with hmem
  · exact hkeys p hmem
  · simp [List.lookup]

/-- Loading a texture does not touch the recorded skybox. -/
theorem load_texture_skybox_eq (tm : TextureManager) (p : String)
    (img : CpuTexture) :
    (tm.load_texture p img).skybox_textures = tm.skybox_textures := by
  rw [TextureManager.load_texture]
  split_ifs <;> rfl

/-- Loading a texture preserves the key inclusion of the GPU map in the
CPU map. -/
theorem load_texture_keys (tm : TextureManager) (p : String) (img : CpuTexture)
    (hkeys : ∀ path, (tm.textures.lookup path).isSome = true →
      (tm.cpu_textures.lookup path).isSome = true) :
    ∀ q, ((tm.load_texture p img).textures.lookup q).isSome = true →
      ((tm.load_texture p img).cpu_textures.lookup q).isSome = true := by
  intro q
  rw [TextureManager.load_texture]
  split_ifs with hmem
  · exact hkeys q
  · intro hq
    cases hqp : q == p
    · simp only [List.lookup, hqp] at hq ⊢
      exact hkeys q hq
    · simp [List.lookup, hqp]

/-- Loading a texture preserves the texture-manager invariant. -/
theorem TMInv_load_texture (tm : TextureManager) (p : String) (img : CpuTexture)
    (h : TMInv tm) : TMInv (tm.load_texture p img) := by
  refine ⟨load_texture_keys tm p img h.1, ?_⟩
  intro sky hsky f hf
  rw [load_texture_skybox_eq] at hsky
  exact load_texture_cpu_mono tm p img f (h.2 sky hsky f hf)

/-- With a pixel-defined skybox sample under the invariant: the sampler
always returns a defined color. -/
theorem sample_skybox_isSome (ops : FloatOps) (tm : TextureManager) (dir : Vec3)
    (h : TMInv tm) : (sample_skybox ops tm dir).isSome = true := by
  cases hsky : tm.skybox_textures with
  | none =>
    rw [sample_skybox]
    rw [hsky]
    dsimp only
    split_ifs <;> simp
  | some sky =>
    have hlook := h.2 sky hsky _ (skyboxFaceUV_mem sky dir)
    rcases Option.isSome_iff_exists.mp hlook with ⟨tex, htex⟩
    rw [sample_skybox]
    rw [hsky]
    simp only [htex]
    simp

/-- C10: the texture manager maintains the invariant that all GPU-map keys
are CPU-map keys and that a recorded skybox has all six face paths in the
CPU map: the invariant holds for the fresh manager, is preserved by
load_texture and by load_skybox (which loads every face before recording
the skybox), and under it the face lookup inside sample_skybox always
succeeds, so its unwrap can never panic. -/
theorem texture_manager_invariant :
    TMInv TextureManager.new ∧
    (∀ (tm : TextureManager) (path : String) (img : CpuTexture),
      TMInv tm → TMInv (tm.load_texture path img)) ∧
    (∀ (tm : TextureManager) (disk : String → CpuTexture)
      (skybox : SkyboxTextures), TMInv tm → TMInv (tm.load_skybox disk skybox)) ∧
    (∀ (ops : FloatOps) (tm : TextureManager) (dir : Vec3),
      TMInv tm → (sample_skybox ops tm dir).isSome = true) := by
  refine ⟨?_, TMInv_load_texture, ?_, fun ops tm dir h => sample_skybox_isSome ops tm dir h⟩
  · constructor
    · intro path hp
      simp [TextureManager.new, List.lookup] at hp
    · intro sky hsky
      simp [TextureManager.new] at hsky
  · intro tm disk skybox h
    rw [TextureManager.load_skybox]
    set t1 := tm.load_texture skybox.front (disk skybox.front) with ht1
    set t2 := t1.load_texture skybox.back (disk skybox.back) with ht2
    set t3 := t2.load_texture skybox.left (disk skybox.left) with ht3
    set t4 := t3.load_texture skybox.right (disk skybox.right) with ht4
    set t5 := t4.load_texture skybox.top (disk skybox.top) with ht5
    set t6 := t5.load_texture skybox.bottom (disk skybox.bottom) with ht6
    have h1 : TMInv t1 := TMInv_load_texture _ _ _ h
    have h2 : TMInv t2 := TMInv_load_texture _ _ _ h1
    have h3 : TMInv t3 := TMInv_load_texture _ _ _ h2
    have h4 : TMInv t4 := TMInv_load_texture _ _ _ h3
    have h5 : TMInv t5 := TMInv_load_texture _ _ _ h4
    have h6 : TMInv t6 := TMInv_load_texture _ _ _ h5
    have f1 : (t6.cpu_textures.lookup skybox.front).isSome = true :=
      load_texture_cpu_mono _ _ _ _ (load_texture_cpu_mono _ _ _ _
        (load_texture_cpu_mono _ _ _ _ (load_texture_cpu_mono _ _ _ _
          (load_texture_cpu_mono _ _ _ _ (load_texture_cpu_self _ _ _ h.1)))))
    have f2 : (t6.cpu_textures.lookup skybox.back).isSome = true :=
      load_texture_cpu_mono _ _ _ _ (load_texture_cpu_mono _ _ _ _
        (load_texture_cpu_mono _ _ _ _ (load_texture_cpu_mono _ _ _ _
          (load_texture_cpu_self _ _ _ h1.1))))
    have f3 : (t6.cpu_textures.lookup skybox.left).isSome = true :=
      load_texture_cpu_mono _ _ _ _ (load_texture_cpu_mono _ _ _ _
        (load_texture_cpu_mono _ _ _ _ (load_texture_cpu_self _ _ _ h2.1)))
    have f4 : (t6.cpu_textures.lookup skybox.right).isSome = true :=
      load_texture_cpu_mono _ _ _ _ (load_texture_cpu_mono _ _ _ _
        (load_texture_cpu_self _ _ _ h3.1))
    have f5 : (t6.cpu_textures.lookup skybox.top).isSome = true :=
      load_texture_cpu_mono _ _ _ _ (load_texture_cpu_self _ _ _ h4.1)
    have f6 : (t6.cpu_textures.lookup skybox.bottom).isSome = true :=
      load_texture_cpu_self _ _ _ h5.1
    refine ⟨fun p hp => h6.1 p hp, ?_⟩
    intro sky hsky f hf
    have hskyeq : sky = skybox := by
      simp only at hsky
      exact (Option.some.inj hsky).symm
    subst hskyeq
    fin_cases hf
    · exact f1
    · exact f2
    · exact f3
    · exact f4
    · exact f5
    · exact f6

/-- Witness for C10: a manager built by loading the sample skybox over the
fresh manager yields a defined sample in every direction. -/
theorem texture_manager_invariant_witness :
    (sample_skybox ops1 (TextureManager.new.load_skybox diskW skyW) dirW).isSome
      = true :=
  texture_manager_invariant.2.2.2 ops1 (TextureManager.new.load_skybox diskW skyW)
    dirW (texture_manager_invariant.2.2.1 TextureManager.new diskW skyW
      texture_manager_invariant.1)

end Raytracer
